import Mathlib

set_option maxHeartbeats 1000000

/-!
Shallow embedding of the website health checker (src/code.py).

The pure decision logic (URL normalization via `validate_url`, suggestion
synthesis via `generate_suggestions`, the link collection / deduplication /
truncation pipeline of `find_broken_links`, the signal logic of
`check_mobile_responsiveness`, and the orchestration of `run_website_test`)
is translated directly from the source.  Network effects (requests.get,
requests.head, the TLS handshake) are modelled as explicit outcome
parameters: an `Except`/`Option` value describing what the external call
returned, exactly as the source's try/except structure consumes it.
Python floats (the measured load time) are modelled as exact rationals.
-/

/-- Boolean test for the error case of an `Except` value. -/
def isErr {ε α : Type} (e : Except ε α) : Bool :=
  match e with
  | .error _ => true
  | .ok _ => false

/-- Models Python `s.startswith(p)` (also used for the tuple form, as a
disjunction of the two calls). -/
def strStartsWith (s p : String) : Bool := p.data.isPrefixOf s.data

/-- Contiguous-sublist test: `pat` occurs somewhere inside `s`. -/
def listIsInfix (pat : List Char) : List Char → Bool
  | [] => pat.isPrefixOf []
  | c :: rest => pat.isPrefixOf (c :: rest) || listIsInfix pat rest

/-- Models the Python substring test `pat in s`. -/
def pyIn (pat s : String) : Bool := listIsInfix pat.data s.data

instance {ε α : Type} [DecidableEq ε] [DecidableEq α] : DecidableEq (Except ε α) :=
  fun a b =>
    match a, b with
    | .error e₁, .error e₂ =>
        if h : e₁ = e₂ then isTrue (h ▸ rfl) else isFalse (fun c => h (Except.error.inj c))
    | .error _, .ok _ => isFalse (fun c => Except.noConfusion c)
    | .ok _, .error _ => isFalse (fun c => Except.noConfusion c)
    | .ok a₁, .ok a₂ =>
        if h : a₁ = a₂ then isTrue (h ▸ rfl) else isFalse (fun c => h (Except.ok.inj c))

/-- CONFIG["REQUEST_TIMEOUT"] (src/code.py line 12). -/
def REQUEST_TIMEOUT : Nat := 15

/-- CONFIG["HEAD_REQUEST_TIMEOUT"] (src/code.py line 13). -/
def HEAD_REQUEST_TIMEOUT : Nat := 8

/-- CONFIG["SSL_EXPIRY_THRESHOLD"] (src/code.py line 14). -/
def SSL_EXPIRY_THRESHOLD : Int := 15

/-- CONFIG["MAX_LINKS_TO_CHECK"] (src/code.py line 15). -/
def MAX_LINKS_TO_CHECK : Nat := 20

/-- urllib.parse.urlsplit removes every tab, CR and LF character from the url
before splitting it (CPython's _UNSAFE_URL_BYTES_TO_REMOVE).  The leading
strip of C0-control/space characters is a no-op for every string
`validate_url` parses, because they all begin with the literal characters
of "http://" or "https://". -/
def removeUnsafe (cs : List Char) : List Char :=
  cs.filter (fun c => !(c == '\t' || c == '\r' || c == '\n'))

/-- The netloc of a url of the form scheme://rest is the run of characters of
rest up to (excluding) the first of /, ?, #. -/
def takeNetloc (cs : List Char) : List Char :=
  cs.takeWhile (fun c => !(c == '/' || c == '?' || c == '#'))

/-- Models `urllib.parse.urlparse(s).netloc` for strings carrying an explicit
"http://" or "https://" scheme — the only strings `validate_url` ever parses
(it prepends "https://" whenever neither literal is present, so the final
fallback branch is unreachable from `validate_url`). -/
def pyNetloc (s : String) : String :=
  if "https://".data.isPrefixOf (removeUnsafe s.data) then
    ⟨takeNetloc ((removeUnsafe s.data).drop 8)⟩
  else if "http://".data.isPrefixOf (removeUnsafe s.data) then
    ⟨takeNetloc ((removeUnsafe s.data).drop 7)⟩
  else ""

/-- urlsplit raises ValueError ("Invalid IPv6 URL") when the netloc contains
one bracket of a [ ] pair without the other; this ValueError propagates out
of `validate_url` uncaught, so it is one more error outcome. -/
def bracketMismatch (netloc : String) : Bool :=
  (netloc.data.contains '[' && !(netloc.data.contains ']')) ||
  (netloc.data.contains ']' && !(netloc.data.contains '['))

/-- Scheme-prepending step of validate_url (src/code.py lines 24-26):
`if not url.startswith(("http://", "https://")): url = "https://" + url`. -/
def withScheme (url : String) : String :=
  if strStartsWith url "http://" || strStartsWith url "https://" then url
  else "https://" ++ url

/-- validate_url (src/code.py lines 19-33).  `if not url` is Python string
truthiness: only the empty string is rejected there.  The two ways the call
can fail afterwards — urlparse's own bracket ValueError and the explicit
`if not parsed.netloc` check — are the two remaining error branches. -/
def validate_url (url : String) : Except String String :=
  if url = "" then .error "URL cannot be empty"
  else if bracketMismatch (pyNetloc (withScheme url)) then .error "Invalid IPv6 URL"
  else if pyNetloc (withScheme url) = "" then
    .error ("Invalid URL: " ++ withScheme url)
  else .ok (withScheme url)

example : validate_url "" = .error "URL cannot be empty" := by decide
example : validate_url " " = .ok "https:// " := by decide
example : validate_url "\t" = .error "Invalid URL: https://\t" := by decide
example : validate_url "example.com" = .ok "https://example.com" := by decide
example : validate_url "http://a.b/c" = .ok "http://a.b/c" := by decide
example : pyNetloc "https://example.com/path" = "example.com" := by decide

/-- Result tuple of check_site_status (src/code.py lines 50 and 53):
`(reachable, status_or_error, headers, load_time)`.  The second Python slot
holds either an int status code or the stringified exception, hence a sum. -/
structure SiteStatus where
  reachable : Bool
  status : Nat ⊕ String
  headers : List (String × String)
  load_time : Option ℚ
  deriving DecidableEq, Repr

/-- check_site_status (src/code.py lines 36-53).  The network effect of
`requests.get` is an explicit outcome parameter: `.ok (code, hdrs, elapsed)`
when the GET completed (elapsed being the measured wall-clock time) and
`.error msg` when it raised a RequestException whose str() is `msg`. -/
def check_site_status
    (outcome : Except String (Nat × List (String × String) × ℚ)) : SiteStatus :=
  match outcome with
  | .ok (code, hdrs, elapsed) => ⟨true, .inl code, hdrs, some elapsed⟩
  | .error msg => ⟨false, .inr msg, [], none⟩

/-- Failure classes of check_ssl_certificate's three except arms
(src/code.py lines 81-86): socket.gaierror, socket.timeout, ssl.SSLError and
the final catch-all `except Exception` (which also covers a failing
strptime/key access on a malformed certificate). -/
inductive SSLFailure where
  | gaierror
  | sockTimeout
  | sslError
  | otherExc
  deriving DecidableEq, Repr

/-- check_ssl_certificate (src/code.py lines 56-86).  The handshake outcome
parameter is `.ok (some notAfter)` when the handshake succeeded and the peer
certificate carried parseable expiry timestamp `notAfter` (seconds),
`.ok none` when `getpeercert()` returned a falsy certificate, and
`.error f` when an exception of class `f` was raised.  `now` is the current
UTC time in seconds; Python's `(expires - utcnow).days` floors the
difference to whole days (timedelta.days uses floor division). -/
def check_ssl_certificate (handshake : Except SSLFailure (Option Int))
    (now : Int) : Bool × Option Int :=
  match handshake with
  | .ok (some notAfter) => (true, some (Int.fdiv (notAfter - now) 86400))
  | .ok none => (false, none)
  | .error _ => (false, none)

/-- Fetched page as find_broken_links consumes it (src/code.py lines 97-105):
the response status code and the href attribute of every `<a href=...>` tag
in document order. -/
structure FetchedPage where
  status_code : Nat
  anchors : List String
  deriving DecidableEq, Repr

/-- requests' `response.ok` is true iff the status code is below 400. -/
def respOk (status_code : Nat) : Bool := status_code < 400

/-- Link-collection loop of find_broken_links (src/code.py lines 102-111):
keep hrefs that are not fragment-only and not javascript:, resolve each with
urljoin against the page url, keep same-host resolutions, and gather them
into a set.  `urljoinF` and `netlocF` are the external urllib capabilities
(urljoin and `urlparse(.).netloc` on arbitrary strings); Python's set is
modelled as `List.dedup`, a fixed determinization of its unspecified
iteration order. -/
def collectLinks (netlocF : String → String) (urljoinF : String → String → String)
    (url : String) (anchors : List String) : List String :=
  ((((anchors.filter
        (fun href => !(strStartsWith href "#") && !(strStartsWith href "javascript:")))
      |>.map (fun href => urljoinF url href))
      |>.filter (fun full_url => netlocF full_url == netlocF url))).dedup

/-- Truncation step `links_to_check = list(links)[:CONFIG["MAX_LINKS_TO_CHECK"]]`
(src/code.py line 114): the ceiling is applied after deduplication. -/
def links_to_check (netlocF : String → String) (urljoinF : String → String → String)
    (url : String) (anchors : List String) : List String :=
  (collectLinks netlocF urljoinF url anchors).take MAX_LINKS_TO_CHECK

/-- Per-link HEAD check (src/code.py lines 117-124).  `headF link` is the
outcome of `requests.head(link, ...)`: `some code` for a completed request
and `none` for a RequestException.  Returns the broken-link entry this link
contributes, if any. -/
def check_one_link (headF : String → Option Nat) (link : String) : Option String :=
  match headF link with
  | some code =>
      if 400 ≤ code then some (link ++ " (Status: " ++ toString code ++ ")")
      else none
  | none => some (link ++ " (Error: Connection failed)")

/-- find_broken_links (src/code.py lines 89-128).  `page` is the outcome of
the page GET: `none` when it raised (the outer except returns the empty
accumulator), `some p` when it returned.  A non-ok status returns the empty
list; otherwise every deduplicated, truncated same-domain link is HEAD-checked
and the failures are collected in order. -/
def find_broken_links (netlocF : String → String)
    (urljoinF : String → String → String) (headF : String → Option Nat)
    (url : String) (page : Option FetchedPage) : List String :=
  match page with
  | none => []
  | some p =>
      if !(respOk p.status_code) then []
      else (links_to_check netlocF urljoinF url p.anchors).filterMap (check_one_link headF)

/-- Parsed page as check_mobile_responsiveness consumes it (src/code.py
lines 144-162): the viewport meta tag (`none` if absent, `some none` if it
lacks a content attribute, `some (some c)` with content `c`), the `.string`
of every style tag (a Python `None` becomes `none`), and the href of every
stylesheet link (`.get('href','')`). -/
structure MobilePage where
  viewport : Option (Option String)
  styles : List (Option String)
  stylesheet_hrefs : List String
  deriving DecidableEq, Repr

/-- check_mobile_responsiveness (src/code.py lines 131-177).  `page` is the
fetch/parse outcome: `none` when requests.get or BeautifulSoup raised (the
except arm), `some p` otherwise. -/
def check_mobile_responsiveness (page : Option MobilePage) : Bool × List String :=
  match page with
  | none => (false, ["Error checking responsiveness"])
  | some p =>
      let has_viewport :=
        match p.viewport with
        | none => false
        | some content =>
            let c := (content.getD "").toLower
            pyIn "width=device-width" c || pyIn "initial-scale" c
      let media_queries :=
        p.styles.any (fun s =>
          match s with
          | some text => pyIn "@media" text
          | none => false)
      let frameworks :=
        p.stylesheet_hrefs.any (fun href =>
          ["bootstrap", "foundation", "materialize", "bulma", "tailwind"].any
            (fun fw => pyIn fw href.toLower))
      let responsive := has_viewport || media_queries || frameworks
      let details :=
        (if has_viewport then ["Has viewport meta tag"] else []) ++
        (if media_queries then ["Uses media queries"] else []) ++
        (if frameworks then ["Uses responsive framework"] else [])
      (responsive, details)

/-- Number of hundredths in `x`, rounded half-to-even — the rounding Python's
float formatting uses.  Computed on the numerator/denominator directly with
integer arithmetic: with `a = 100 * num` and `b = den > 0`, the floor of
`a / b` is `a.fdiv b`, the remainder `r = a - f * b` lies in `[0, b)`, and
comparing `r / b` with `1 / 2` is comparing `2 * r` with `b`. -/
def hundredths (x : ℚ) : Int :=
  let a := x.num * 100
  let b := (x.den : Int)
  let f := Int.fdiv a b
  let r := a - f * b
  if 2 * r < b then f
  else if b < 2 * r then f + 1
  else if f % 2 = 0 then f else f + 1

/-- Models the f-string conversion `{x:.2f}` on the (rational-modelled) load
time: round half-to-even to hundredths, then print with exactly two
decimals. -/
def fmt2 (x : ℚ) : String :=
  let n := hundredths x
  let sign := if n < 0 then "-" else ""
  let m := n.natAbs
  let whole := m / 100
  let cents := m % 100
  sign ++ toString whole ++ "." ++
    (if cents < 10 then "0" ++ toString cents else toString cents)

example : fmt2 4 = "4.00" := by decide
example : fmt2 ⟨9, 2, by decide, by decide⟩ = "4.50" := by decide
example : fmt2 ⟨-5, 4, by decide, by decide⟩ = "-1.25" := by decide

/-- generate_suggestions (src/code.py lines 180-206).  Each rule contributes
its segment in source order; `if broken:` and `if load_time:` are Python
truthiness (non-empty list, non-None and non-zero float). -/
def generate_suggestions (ssl_ok : Bool) (days_left : Option Int)
    (broken : List String) (mobile_result : Bool × List String)
    (load_time : Option ℚ) : List String :=
  let mobile_friendly := mobile_result.1
  (if !ssl_ok then
      ["Install a valid SSL certificate using Let\x27s Encrypt or a trusted CA"]
   else
      match days_left with
      | some d =>
          if d < SSL_EXPIRY_THRESHOLD then
            ["Renew your SSL certificate soon. It expires in " ++ toString d ++ " days"]
          else []
      | none => [])
  ++ (if broken.isEmpty then []
      else ["Fix " ++ toString broken.length ++ " broken links on your website"])
  ++ (if !mobile_friendly then
        ["Improve mobile responsiveness by adding a viewport meta tag",
         "Consider using responsive frameworks like Bootstrap or Tailwind CSS"]
      else [])
  ++ (match load_time with
      | some t => if t ≠ 0 ∧ 3 < t then
            ["Optimize page load time (currently " ++ fmt2 t ++ "s)",
             "Compress images and minify CSS/JavaScript files",
             "Consider using a CDN for static assets"]
          else []
      | none => [])

example :
    generate_suggestions true (some 10) [] (true, []) none =
      ["Renew your SSL certificate soon. It expires in 10 days"] := by decide

/-- Aggregate of one pipeline run, the fields of run_website_test's
`results` dict plus the validated url (src/code.py lines 209-283). -/
structure HealthResults where
  url : String
  status : SiteStatus
  ssl : Bool × Option Int
  broken_links : List String
  mobile : Bool × List String
  suggestions : List String
  deriving DecidableEq, Repr

/-- run_website_test (src/code.py lines 209-286), with the prints dropped and
the network outcomes oraclized.  `statusOutcome` feeds check_site_status;
`sslProbe`, `linkProbe` and `mobileProbe` are the values the three downstream
probes would return for the validated url — consulted only in the reachable
branch, exactly as the source only calls them there, the unreachable branch
pinning `results['ssl'] = (False, None)`, `results['broken_links'] = []`,
`results['mobile'] = (False, ["Site not reachable"])` (lines 228-230).
A validation failure is caught by the outer except and reported, modelled as
the `.error` case. -/
def run_website_test (url : String)
    (statusOutcome : Except String (Nat × List (String × String) × ℚ))
    (sslProbe : Bool × Option Int) (linkProbe : List String)
    (mobileProbe : Bool × List String) : Except String HealthResults :=
  match validate_url url with
  | .error e => .error e
  | .ok u =>
      let st := check_site_status statusOutcome
      let ssl := if st.reachable then sslProbe else (false, none)
      let broken := if st.reachable then linkProbe else []
      let mobile := if st.reachable then mobileProbe else (false, ["Site not reachable"])
      let suggestions := generate_suggestions ssl.1 ssl.2 broken mobile st.load_time
      .ok ⟨u, st, ssl, broken, mobile, suggestions⟩

example :
    run_website_test "example.com" (.error "refused") (true, some 100) ["x"] (true, ["y"]) =
      .ok ⟨"https://example.com", ⟨false, .inr "refused", [], none⟩, (false, none), [],
           (false, ["Site not reachable"]),
           ["Install a valid SSL certificate using Let\x27s Encrypt or a trusted CA",
            "Improve mobile responsiveness by adding a viewport meta tag",
            "Consider using responsive frameworks like Bootstrap or Tailwind CSS"]⟩ := by
  decide

/-! Helper lemmas shared by the claim theorems. -/

theorem isPrefixOf_append_self (l t : List Char) : l.isPrefixOf (l ++ t) = true := by
  induction l with
  | nil => simp [List.isPrefixOf]
  | cons c cs ih => simp [List.isPrefixOf, ih]

theorem strStartsWith_append_left (a b : String) : strStartsWith (a ++ b) a = true := by
  unfold strStartsWith
  rw [String.data_append]
  exact isPrefixOf_append_self _ _

theorem isPrefixOf_append_of {p l : List Char} (t : List Char)
    (h : p.isPrefixOf l = true) : p.isPrefixOf (l ++ t) = true := by
  induction p generalizing l with
  | nil => simp [List.isPrefixOf]
  | cons c cs ih =>
      cases l with
      | nil => simp [List.isPrefixOf] at h
      | cons d ds =>
          have h' : ((c == d) && cs.isPrefixOf ds) = true := h
          rw [Bool.and_eq_true] at h'
          show ((c == d) && cs.isPrefixOf (ds ++ t)) = true
          rw [Bool.and_eq_true]
          exact ⟨h'.1, ih h'.2⟩

theorem strStartsWith_append_of {x a : String} (b : String)
    (h : strStartsWith x a = true) : strStartsWith (x ++ b) a = true := by
  unfold strStartsWith at h ⊢
  rw [String.data_append]
  exact isPrefixOf_append_of _ h

theorem withScheme_has_scheme (s : String) :
    strStartsWith (withScheme s) "http://" = true ∨
      strStartsWith (withScheme s) "https://" = true := by
  unfold withScheme
  split
  next h =>
    rcases (by simpa using h :
        strStartsWith s "http://" = true ∨ strStartsWith s "https://" = true) with h1 | h1
    · exact Or.inl h1
    · exact Or.inr h1
  next => exact Or.inr (strStartsWith_append_left "https://" s)

theorem scheme_ne_empty {u : String}
    (h : strStartsWith u "http://" = true ∨ strStartsWith u "https://" = true) :
    u ≠ "" := by
  intro he
  rw [he] at h
  rcases h with h | h <;> exact absurd h (by decide)

theorem withScheme_id {u : String}
    (h : strStartsWith u "http://" = true ∨ strStartsWith u "https://" = true) :
    withScheme u = u := by
  unfold withScheme
  rcases h with h | h <;> simp [h]

theorem validate_url_eq_ok {s u : String} (h : validate_url s = .ok u) :
    s ≠ "" ∧ u = withScheme s ∧ bracketMismatch (pyNetloc (withScheme s)) = false ∧
      pyNetloc (withScheme s) ≠ "" := by
  by_cases h0 : s = ""
  · rw [h0] at h
    simp [validate_url] at h
  · simp only [validate_url, if_neg h0] at h
    split at h
    · simp at h
    next hbr =>
      split at h
      · simp at h
      next hnl =>
        refine ⟨h0, (Except.ok.inj h).symm, ?_, hnl⟩
        simpa using hbr

/-- C7: on any network-level failure (the RequestException arm of
check_site_status), the Reachability Probe returns reachable=false with the
stringified exception in place of the status, an empty headers mapping and an
absent load time — the failure is encoded in the result, not propagated
(check_site_status is a total function of the fetch outcome). -/
theorem check_site_status_network_failure (msg : String) :
    check_site_status (.error msg) = ⟨false, Sum.inr msg, [], none⟩ := rfl

/-- C8: for every failure class of the TLS handshake or certificate parse
(socket.gaierror, socket.timeout, ssl.SSLError, or the catch-all Exception),
the Certificate Probe returns valid=false with daysUntilExpiry absent,
uniformly for every class and without propagating (the model is total). -/
theorem check_ssl_certificate_failure (f : SSLFailure) (now : Int) :
    check_ssl_certificate (.error f) now = (false, none) := rfl

/-- C6 (amended): on any fetch or parse failure the Responsiveness Probe
returns responsive=false with the one-element signal list
["Error checking responsiveness"] (capital E, as in the source), never
propagating the failure (the model is total on the failure case). -/
theorem check_mobile_responsiveness_failure :
    check_mobile_responsiveness none = (false, ["Error checking responsiveness"]) := rfl

/-- C6 counterexample: at the fetch-failure input the signals list is not the
claimed lowercase ["error checking responsiveness"] — the source emits
"Error checking responsiveness" (src/code.py line 177). -/
theorem check_mobile_responsiveness_counterexample :
    check_mobile_responsiveness none ≠ (false, ["error checking responsiveness"]) := by
  decide

/-- C9: when the Reachability Probe reports reachable=false, the Orchestrator
does not consult the certificate, link or responsiveness probes (the result is
one fixed value, independent of all three probe parameters), fixes their
fields to the not-reachable defaults (certificate invalid with absent expiry,
empty broken-links list, responsive=false), and the synthesizer still runs on
those defaults, producing the three default-triggered suggestions. -/
theorem run_website_test_unreachable (url u msg : String)
    (sslProbe : Bool × Option Int) (linkProbe : List String)
    (mobileProbe : Bool × List String)
    (hok : validate_url url = .ok u) :
    run_website_test url (.error msg) sslProbe linkProbe mobileProbe =
      .ok ⟨u, ⟨false, Sum.inr msg, [], none⟩, (false, none), [],
           (false, ["Site not reachable"]),
           ["Install a valid SSL certificate using Let\x27s Encrypt or a trusted CA",
            "Improve mobile responsiveness by adding a viewport meta tag",
            "Consider using responsive frameworks like Bootstrap or Tailwind CSS"]⟩ := by
  unfold run_website_test
  rw [hok]
  rfl

/-- Witness for C9 at a concrete unreachable run. -/
theorem run_website_test_unreachable_witness :
    run_website_test "example.com" (.error "Connection refused") (true, some 100) ["x"]
        (true, ["y"]) =
      .ok ⟨"https://example.com", ⟨false, Sum.inr "Connection refused", [], none⟩,
           (false, none), [], (false, ["Site not reachable"]),
           ["Install a valid SSL certificate using Let\x27s Encrypt or a trusted CA",
            "Improve mobile responsiveness by adding a viewport meta tag",
            "Consider using responsive frameworks like Bootstrap or Tailwind CSS"]⟩ :=
  run_website_test_unreachable "example.com" "https://example.com" "Connection refused"
    (true, some 100) ["x"] (true, ["y"]) (by decide)

/-- C4: the Link Integrity Probe's output length never exceeds
MAX_LINKS_TO_CHECK (= 20), whatever page, resolver, host extractor and HEAD
outcomes are supplied — the ceiling is applied (after List.dedup, the model
of set deduplication) by `links_to_check`, and each checked link contributes
at most one broken entry. -/
theorem find_broken_links_length_le (netlocF : String → String)
    (urljoinF : String → String → String) (headF : String → Option Nat)
    (url : String) (page : Option FetchedPage) :
    (find_broken_links netlocF urljoinF headF url page).length ≤ MAX_LINKS_TO_CHECK := by
  cases page with
  | none => simp [find_broken_links]
  | some p =>
      simp only [find_broken_links]
      split
      · simp
      · calc ((links_to_check netlocF urljoinF url p.anchors).filterMap
                (check_one_link headF)).length
              ≤ (links_to_check netlocF urljoinF url p.anchors).length :=
                List.length_filterMap_le _ _
          _ ≤ MAX_LINKS_TO_CHECK := by
                unfold links_to_check
                rw [List.length_take]
                exact min_le_left _ _

/-- C5: every URL the Link Integrity Probe checks (a member of
`links_to_check`) has a resolved host exactly equal to the page url's host and
arises from an anchor href that is neither fragment-only ("#...") nor a
javascript: pseudo-link; and every reported broken-link entry begins with one
of those checked URLs — so a cross-domain URL is never checked nor reported,
for any page, resolver and host extractor. -/
theorem find_broken_links_same_domain :
    (∀ (netlocF : String → String) (urljoinF : String → String → String)
        (url : String) (anchors : List String) (link : String),
        link ∈ links_to_check netlocF urljoinF url anchors →
        netlocF link = netlocF url ∧
        ∃ href ∈ anchors, strStartsWith href "#" = false ∧
          strStartsWith href "javascript:" = false ∧ link = urljoinF url href) ∧
    (∀ (netlocF : String → String) (urljoinF : String → String → String)
        (headF : String → Option Nat) (url : String) (p : FetchedPage)
        (entry : String),
        entry ∈ find_broken_links netlocF urljoinF headF url (some p) →
        ∃ link ∈ links_to_check netlocF urljoinF url p.anchors,
          strStartsWith entry link = true) := by
  constructor
  · intro netlocF urljoinF url anchors link hmem
    have h1 : link ∈ collectLinks netlocF urljoinF url anchors :=
      List.mem_of_mem_take hmem
    unfold collectLinks at h1
    rw [List.mem_dedup, List.mem_filter] at h1
    obtain ⟨h2, hnet⟩ := h1
    rw [List.mem_map] at h2
    obtain ⟨href, h3, rfl⟩ := h2
    rw [List.mem_filter] at h3
    obtain ⟨h4, hcond⟩ := h3
    rw [Bool.and_eq_true, Bool.not_eq_true', Bool.not_eq_true'] at hcond
    exact ⟨eq_of_beq hnet, href, h4, hcond.1, hcond.2, rfl⟩
  · intro netlocF urljoinF headF url p entry hmem
    simp only [find_broken_links] at hmem
    split at hmem
    · simp at hmem
    · rw [List.mem_filterMap] at hmem
      obtain ⟨link, hlink, hcl⟩ := hmem
      refine ⟨link, hlink, ?_⟩
      unfold check_one_link at hcl
      split at hcl
      · split at hcl
        · obtain rfl := Option.some.inj hcl
          exact strStartsWith_append_of _
            (strStartsWith_append_of _ (strStartsWith_append_left link _))
        · cases hcl
      · obtain rfl := Option.some.inj hcl
        exact strStartsWith_append_left link _

/-- Witness for C5 on a concrete page: one same-host anchor, checked and
reported broken with status 404. -/
theorem find_broken_links_same_domain_witness :
    (pyNetloc "https://example.com/a" = pyNetloc "https://example.com" ∧
      ∃ href ∈ ["https://example.com/a"], strStartsWith href "#" = false ∧
        strStartsWith href "javascript:" = false ∧ "https://example.com/a" = href) ∧
    (∃ link ∈ links_to_check pyNetloc (fun _ href => href) "https://example.com"
        ["https://example.com/a"],
      strStartsWith "https://example.com/a (Status: 404)" link = true) :=
  ⟨find_broken_links_same_domain.1 pyNetloc (fun _ href => href) "https://example.com"
      ["https://example.com/a"] "https://example.com/a" (by decide),
   find_broken_links_same_domain.2 pyNetloc (fun _ href => href) (fun _ => some 404)
      "https://example.com" ⟨200, ["https://example.com/a"]⟩
      "https://example.com/a (Status: 404)" (by decide)⟩

/-- C1: the Suggestion Synthesizer applies its rules in the fixed source
order.  First conjunct: when the certificate is invalid, broken links are
present, the site is non-responsive and the load time exceeds 3 seconds, the
output is exactly the seven suggestions — certificate install, broken-link
count, the two responsiveness ones, the three performance ones (with the load
time formatted to two decimals) — each rule firing once.  Second conjunct:
when no rule triggers, the output is empty. -/
theorem generate_suggestions_fixed_order :
    (∀ (days_left : Option Int) (broken : List String) (details : List String) (t : ℚ),
        broken ≠ [] → 3 < t →
        generate_suggestions false days_left broken (false, details) (some t) =
          ["Install a valid SSL certificate using Let\x27s Encrypt or a trusted CA",
           "Fix " ++ toString broken.length ++ " broken links on your website",
           "Improve mobile responsiveness by adding a viewport meta tag",
           "Consider using responsive frameworks like Bootstrap or Tailwind CSS",
           "Optimize page load time (currently " ++ fmt2 t ++ "s)",
           "Compress images and minify CSS/JavaScript files",
           "Consider using a CDN for static assets"]) ∧
    (∀ (days_left : Option Int) (details : List String) (load_time : Option ℚ),
        (∀ d, days_left = some d → ¬ d < SSL_EXPIRY_THRESHOLD) →
        (∀ t, load_time = some t → ¬ (t ≠ 0 ∧ 3 < t)) →
        generate_suggestions true days_left [] (true, details) load_time = []) := by
  constructor
  · intro days broken details t hb ht
    have hbe : broken.isEmpty = false := by
      cases broken with
      | nil => exact absurd rfl hb
      | cons a l => rfl
    have ht0 : t ≠ 0 := by
      intro h
      rw [h] at ht
      exact absurd ht (by norm_num)
    simp [generate_suggestions, hbe, ht, ht0]
  · intro days details lt hd hl
    cases days with
    | none =>
        cases lt with
        | none => simp [generate_suggestions]
        | some t => simp [generate_suggestions, hl t rfl]
    | some d =>
        cases lt with
        | none => simp [generate_suggestions, hd d rfl]
        | some t => simp [generate_suggestions, hd d rfl, hl t rfl]

/-- Witness for C1 on concrete inputs: one broken link and a 4-second load
time yield the seven suggestions in order; the formatted value is "4.00". -/
theorem generate_suggestions_fixed_order_witness :
    generate_suggestions false none ["b"] (false, []) (some 4) =
      ["Install a valid SSL certificate using Let\x27s Encrypt or a trusted CA",
       "Fix 1 broken links on your website",
       "Improve mobile responsiveness by adding a viewport meta tag",
       "Consider using responsive frameworks like Bootstrap or Tailwind CSS",
       "Optimize page load time (currently 4.00s)",
       "Compress images and minify CSS/JavaScript files",
       "Consider using a CDN for static assets"] :=
  (generate_suggestions_fixed_order.1 none ["b"] [] 4 (by decide) (by decide)).trans
    (by decide)

/-- C3: for every non-empty input without an http:// or https:// prefix the
normalizer prepends "https://" (first conjunct: the prepending step itself);
and every successfully returned URL starts with http:// or https:// and has a
non-empty netloc (second conjunct) — never empty, never schemeless. -/
theorem validate_url_scheme_and_host :
    (∀ s : String, s ≠ "" → strStartsWith s "http://" = false →
        strStartsWith s "https://" = false → withScheme s = "https://" ++ s) ∧
    (∀ s u : String, validate_url s = .ok u →
        (strStartsWith u "http://" = true ∨ strStartsWith u "https://" = true) ∧
        pyNetloc u ≠ "") := by
  constructor
  · intro s _ h1 h2
    simp [withScheme, h1, h2]
  · intro s u h
    obtain ⟨h0, hu, hbr, hnl⟩ := validate_url_eq_ok h
    rw [hu]
    exact ⟨withScheme_has_scheme s, hnl⟩

/-- Witness for C3 at a concrete schemeless input and its normalized URL. -/
theorem validate_url_scheme_and_host_witness :
    withScheme "example.com" = "https://" ++ "example.com" ∧
    ((strStartsWith "https://example.com" "http://" = true ∨
        strStartsWith "https://example.com" "https://" = true) ∧
      pyNetloc "https://example.com" ≠ "") :=
  ⟨validate_url_scheme_and_host.1 "example.com" (by decide) (by decide) (by decide),
   validate_url_scheme_and_host.2 "example.com" "https://example.com" (by decide)⟩

/-- C10: the normalizer is idempotent — whenever it succeeds, running it again
on its own output returns that output unchanged (the output already carries a
scheme prefix, so no prepending happens, and the same parse passes the same
checks). -/
theorem validate_url_idempotent (s u : String) (h : validate_url s = .ok u) :
    validate_url u = .ok u := by
  obtain ⟨h0, hu, hbr, hnl⟩ := validate_url_eq_ok h
  subst hu
  have hpre := withScheme_has_scheme s
  have hne := scheme_ne_empty hpre
  have hid := withScheme_id hpre
  unfold validate_url
  rw [if_neg hne]
  simp only [hid]
  rw [if_neg (by simp [hbr]), if_neg hnl]

/-- Witness for C10: a successful run on "example.com" re-normalizes to
itself. -/
theorem validate_url_idempotent_witness :
    validate_url "https://example.com" = .ok "https://example.com" :=
  validate_url_idempotent "example.com" "https://example.com" (by decide)

/-- C2 counterexample: the single-space input is whitespace-only and non-empty,
yet validate_url succeeds — `if not url` only rejects the empty string, and
the space survives into the netloc, which is then truthy. -/
theorem validate_url_whitespace_counterexample :
    validate_url " " = .ok "https:// " := by decide

theorem takeNetloc_of_spaces (l : List Char) (h : ∀ d ∈ l, d = ' ') :
    takeNetloc l = l := by
  induction l with
  | nil => rfl
  | cons d ds ih =>
      have hd := h d (List.mem_cons_self d ds)
      subst hd
      have hrest := ih (fun e he => h e (List.mem_cons_of_mem _ he))
      simp only [takeNetloc] at hrest ⊢
      rw [List.takeWhile_cons, if_pos (by decide), hrest]

theorem contains_false_of_spaces (l : List Char) (h : ∀ d ∈ l, d = ' ')
    (c : Char) (hc : ¬ c = ' ') : l.contains c = false := by
  induction l with
  | nil => rfl
  | cons d ds ih =>
      have hd := h d (List.mem_cons_self d ds)
      subst hd
      have hrest := ih (fun e he => h e (List.mem_cons_of_mem _ he))
      have hbc : (c == ' ') = false := beq_eq_false_iff_ne.mpr hc
      rw [List.contains_cons, hrest, hbc]
      rfl

/-- C2 (amended): on the empty input validate_url fails (the `if not url`
check); a non-empty whitespace-only input fails if and only if it contains no
space character — tab/CR/LF are stripped by urlparse, leaving an empty netloc,
while any space survives into the netloc, which is then truthy, so the call
succeeds.  Hence whitespace-only inputs containing a space are NOT rejected. -/
theorem validate_url_whitespace_only (s : String)
    (hws : ∀ c ∈ s.data, c = ' ' ∨ c = '\t' ∨ c = '\r' ∨ c = '\n') :
    isErr (validate_url s) = true ↔ ∀ c ∈ s.data, c ≠ ' ' := by
  obtain ⟨l⟩ := s
  cases l with
  | nil =>
      constructor
      · intro _ c hc
        exact absurd hc (List.not_mem_nil c)
      · intro _
        decide
  | cons c cs =>
      have hws' : ∀ d ∈ c :: cs, d = ' ' ∨ d = '\t' ∨ d = '\r' ∨ d = '\n' := hws
      have hc0 := hws' c (List.mem_cons_self c cs)
      have hne : (⟨c :: cs⟩ : String) ≠ "" := by
        intro h
        exact List.cons_ne_nil c cs (congrArg String.data h)
      have hh1 : strStartsWith ⟨c :: cs⟩ "http://" = false := by
        rcases hc0 with h | h | h | h <;> subst h <;> rfl
      have hh2 : strStartsWith ⟨c :: cs⟩ "https://" = false := by
        rcases hc0 with h | h | h | h <;> subst h <;> rfl
      have hsch : withScheme ⟨c :: cs⟩ = "https://" ++ ⟨c :: cs⟩ := by
        simp [withScheme, hh1, hh2]
      have hdata : ("https://" ++ (⟨c :: cs⟩ : String)).data =
          "https://".data ++ (c :: cs) := String.data_append _ _
      have hru : removeUnsafe ("https://".data ++ (c :: cs)) =
          "https://".data ++ removeUnsafe (c :: cs) := by
        unfold removeUnsafe
        rw [List.filter_append]
        congr 1
      have hspaces : ∀ d ∈ removeUnsafe (c :: cs), d = ' ' := by
        intro d hd
        unfold removeUnsafe at hd
        rw [List.mem_filter] at hd
        obtain ⟨hmem, hkeep⟩ := hd
        rcases hws' d hmem with h | h | h | h
        · exact h
        · subst h; exact absurd hkeep (by decide)
        · subst h; exact absurd hkeep (by decide)
        · subst h; exact absurd hkeep (by decide)
      have hnet : pyNetloc ("https://" ++ ⟨c :: cs⟩) = ⟨removeUnsafe (c :: cs)⟩ := by
        unfold pyNetloc
        rw [hdata, hru]
        rw [if_pos (isPrefixOf_append_self "https://".data (removeUnsafe (c :: cs)))]
        have hdrop : ("https://".data ++ removeUnsafe (c :: cs)).drop 8 =
            removeUnsafe (c :: cs) := by
          have h8 : ("https://".data).length = 8 := rfl
          rw [← h8, List.drop_left]
        rw [hdrop, takeNetloc_of_spaces _ hspaces]
      have hbr2 : bracketMismatch ⟨removeUnsafe (c :: cs)⟩ = false := by
        show ((removeUnsafe (c :: cs)).contains '[' &&
                !((removeUnsafe (c :: cs)).contains ']') ||
              ((removeUnsafe (c :: cs)).contains ']' &&
                !((removeUnsafe (c :: cs)).contains '['))) = false
        rw [contains_false_of_spaces _ hspaces '[' (by decide),
            contains_false_of_spaces _ hspaces ']' (by decide)]
        rfl
      have hempty_iff : ((⟨removeUnsafe (c :: cs)⟩ : String) = "") ↔
          removeUnsafe (c :: cs) = [] := by
        constructor
        · intro h
          exact congrArg String.data h
        · intro h
          rw [h]
      unfold validate_url
      rw [if_neg hne, hsch, hnet]
      rw [if_neg (by simp [hbr2])]
      by_cases hnil : removeUnsafe (c :: cs) = []
      · rw [if_pos (hempty_iff.mpr hnil)]
        simp only [isErr]
        constructor
        · intro _ d hd heq
          have hmem : ' ' ∈ removeUnsafe (c :: cs) := by
            unfold removeUnsafe
            rw [List.mem_filter]
            exact ⟨heq ▸ hd, by decide⟩
          rw [hnil] at hmem
          exact absurd hmem (List.not_mem_nil _)
        · intro _
          trivial
      · rw [if_neg (fun hcontra => hnil (hempty_iff.mp hcontra))]
        simp only [isErr]
        constructor
        · intro hcontra
          simp at hcontra
        · intro hall
          exfalso
          apply hnil
          unfold removeUnsafe
          rw [List.filter_eq_nil_iff]
          intro d hd
          rcases hws' d hd with h | h | h | h
          · exact absurd h (hall d hd)
          · subst h; decide
          · subst h; decide
          · subst h; decide

/-- Witness for C2 (amended) at the tab-only input, which is rejected. -/
theorem validate_url_whitespace_only_witness :
    isErr (validate_url "\t") = true :=
  (validate_url_whitespace_only "\t" (by decide)).mpr (by decide)
